import Mathlib

/-!
Verification of the Renegade liquidity-module adapter.

This development shallowly embeds the adapter's decision logic:
`modules/renegade/types.py` (order and match-bundle records, amount
validation), `modules/renegade/client.py` (client construction and the
status-code handling of the single transport round trip), and
`modules/renegade_liquidity_module.py` (pair validation, order
construction, client resolution and quote interpretation).

Python exceptions are embedded as `Except String`: a function that can
raise returns `.error msg`, and a caller that does not catch propagates
the error through `Except` bind.  The HTTP transport is an external
collaborator: it is embedded as an oracle mapping the posted order to
either a response (status code plus parsed body) or a raised exception.
Pydantic's `model_post_init` checksum-normalization of the two mint
address strings (a hex case renormalization via `Web3.to_checksum_address`)
is omitted: it does not interact with the side / amount-constraint logic
the claims are about, and the mint strings are carried verbatim.
-/

namespace Renegade

/-- `templates/liquidity_module.py`: a token value object.  The Python
`Decimal` reference price is embedded as a rational number. -/
structure Token where
  address : String
  symbol : String
  decimals : Nat
  reference_price : Rat
deriving Repr, DecidableEq

/-- `modules/renegade_liquidity_module.py`: the set of known USDC contract
addresses (all lower-case) across supported chains. -/
def USDC_ADDRESSES : List String :=
  [ "0xaf88d065e77c8cc2239327c5edb3a432268e5831"  -- Arbitrum One
  , "0xdf8d259c04020562717557f2b5a3cf28e92707d1"  -- Arbitrum Sepolia
  , "0x833589fcd6edb6e08f4c7c32d4f71b54bda02913"  -- Base Mainnet
  , "0xd9961bb4cb27192f8dad20a662be081f546b0e74"  -- Base Sepolia
  ]

/-- Constant annotating that a fee is not taken out of the input token. -/
def NO_INPUT_FEE : Int := 0

/-- Python's `str.lower()` on the ASCII-hex address strings the adapter
compares: lower-case each character.  (Defined by mapping over the
character list so that it evaluates by kernel reduction; it agrees with
`String.toLower`.) -/
def strToLower (s : String) : String :=
  ⟨s.data.map Char.toLower⟩

/-- `RenegadeLiquidityModule._check_usdc`: a token is USDC iff its
lower-cased address is in the known registry. -/
def check_usdc (token : Token) : Bool :=
  USDC_ADDRESSES.contains (strToLower token.address)

/-- `RenegadeLiquidityModule._validate_pair`: valid iff at least one side is
USDC and not both are. -/
def validate_pair (input_token output_token : Token) : Bool :=
  let usdc_in := check_usdc input_token
  let usdc_out := check_usdc output_token
  -- Currently, all pairs are USDC quoted in Renegade
  if !(usdc_in || usdc_out) then false
  -- No USDC -> USDC pairs
  else if usdc_in && usdc_out then false
  else true

/-- `modules/renegade/types.py`: order side. -/
inductive OrderSide where
  | BUY
  | SELL
deriving Repr, DecidableEq

/-- `modules/renegade/types.py`: the outbound order record.  Exactly the
Python field set; amount fields are optional Python ints. -/
structure ExternalOrder where
  quote_mint : String
  base_mint : String
  side : OrderSide
  base_amount : Option Int := none
  quote_amount : Option Int := none
  exact_base_output : Option Int := none
  exact_quote_output : Option Int := none
  min_fill_size : Int := 0
deriving Repr, DecidableEq

/-- An amount field counts as unset when it is `None` or `0`
(the `... is None or ... == 0` tests in `validate_amounts`). -/
def amtUnset : Option Int → Bool
  | none => true
  | some v => v == 0

/-- `ExternalOrder.validate_amounts`: pydantic model validator run at
construction; raises unless exactly one amount field is set. -/
def ExternalOrder.validate_amounts (o : ExternalOrder) : Except String ExternalOrder :=
  let base_amt_none := amtUnset o.base_amount
  let quote_amt_none := amtUnset o.quote_amount
  let exact_base_amt_none := amtUnset o.exact_base_output
  let exact_quote_amt_none := amtUnset o.exact_quote_output
  let amount_fields_set :=
    ([base_amt_none, quote_amt_none, exact_base_amt_none, exact_quote_amt_none].filter
      (fun x => !x)).length
  if amount_fields_set == 0 then
    .error "One of base_amount, quote_amount, exact_base_output, or exact_quote_output must be set"
  else if amount_fields_set > 1 then
    .error "Only one of base_amount, quote_amount, exact_base_output, or exact_quote_output can be set"
  else
    .ok o

/-- Constructing an `ExternalOrder`: pydantic runs `validate_amounts` as
part of `__init__`, so construction is fallible. -/
def ExternalOrder.construct (o : ExternalOrder) : Except String ExternalOrder :=
  o.validate_amounts

/-- `RenegadeLiquidityModule._create_order_from_input`: order for the pair,
constraining the input amount. -/
def create_order_from_input (input_token output_token : Token) (input_amount : Int) :
    Except String ExternalOrder :=
  if check_usdc input_token then
    -- Buy side
    ExternalOrder.construct
      { quote_mint := input_token.address  -- USDC
        base_mint := output_token.address
        side := OrderSide.BUY
        quote_amount := some input_amount }
  else
    -- Sell side
    ExternalOrder.construct
      { quote_mint := output_token.address  -- USDC
        base_mint := input_token.address
        side := OrderSide.SELL
        base_amount := some input_amount }

/-- `RenegadeLiquidityModule._create_order_from_output`: order for the pair,
constraining the output amount. -/
def create_order_from_output (input_token output_token : Token) (output_amount : Int) :
    Except String ExternalOrder :=
  if check_usdc input_token then
    -- Buy side
    ExternalOrder.construct
      { quote_mint := input_token.address  -- USDC
        base_mint := output_token.address
        side := OrderSide.BUY
        exact_base_output := some output_amount }
  else
    -- Sell side
    ExternalOrder.construct
      { quote_mint := output_token.address  -- USDC
        base_mint := input_token.address
        side := OrderSide.SELL
        exact_quote_output := some output_amount }

/-- `modules/renegade/types.py`: matched pair result inside a bundle. -/
structure ApiExternalMatchResult where
  quote_mint : String
  base_mint : String
  quote_amount : Int
  base_amount : Int
  direction : OrderSide
deriving Repr, DecidableEq

/-- `modules/renegade/types.py`: the two fee components of a match. -/
structure FeeTake where
  relayer_fee : Int
  protocol_fee : Int
deriving Repr, DecidableEq

/-- `FeeTake.total`. -/
def FeeTake.total (f : FeeTake) : Int :=
  f.relayer_fee + f.protocol_fee

/-- `modules/renegade/types.py`: one transfer leg (asset and amount). -/
structure ApiExternalAssetTransfer where
  mint : String
  amount : Int
deriving Repr, DecidableEq

/-- Opaque settlement transaction parameters (`web3.types.TxParams`),
embedded as raw key/value pairs; the adapter never inspects them. -/
structure TxParams where
  fields : List (String × String) := []
deriving Repr, DecidableEq

/-- `modules/renegade/types.py`: the venue's match bundle. -/
structure AtomicMatchApiBundle where
  match_result : ApiExternalMatchResult
  fees : FeeTake
  receive : ApiExternalAssetTransfer
  send : ApiExternalAssetTransfer
  settlement_tx : TxParams
deriving Repr, DecidableEq

/-- `modules/renegade/types.py`: gas sponsorship metadata. -/
structure GasSponsorshipInfo where
  refund_amount : Int
  refund_native_eth : Bool
  refund_address : Option String := none
deriving Repr, DecidableEq

/-- `modules/renegade/types.py`: the deserialized match response. -/
structure ExternalMatchResponse where
  match_bundle : AtomicMatchApiBundle
  gas_sponsored : Bool := false
  gas_sponsorship_info : Option GasSponsorshipInfo := none
deriving Repr, DecidableEq

/-- `modules/renegade_liquidity_module.py`: supported networks. -/
inductive Chain where
  | ARBITRUM_ONE
  | ARBITRUM_SEPOLIA
  | BASE_MAINNET
  | BASE_SEPOLIA
deriving Repr, DecidableEq

/-- The `fixed_parameters` dict, restricted to the keys the adapter reads
via `.get`.  `chain = none` embeds a missing `"chain"` key or a value that
is not one of the four `Chain` members: both fall through every branch of
`_get_client` to the `raise`. -/
structure FixedParameters where
  chain : Option Chain := none
  api_key : Option String := none
  api_secret : Option String := none
deriving Repr, DecidableEq

/-- `modules/renegade/client.py`: base URL constants. -/
def ARBITRUM_SEPOLIA_BASE_URL : String := "https://arbitrum-sepolia.auth-server.renegade.fi"

/-- `modules/renegade/client.py`: base URL constants. -/
def ARBITRUM_ONE_BASE_URL : String := "https://arbitrum-one.auth-server.renegade.fi"

/-- `modules/renegade/client.py`: base URL constants. -/
def BASE_SEPOLIA_BASE_URL : String := "https://base-sepolia.auth-server.renegade.fi"

/-- `modules/renegade/client.py`: base URL constants. -/
def BASE_MAINNET_BASE_URL : String := "https://base-mainnet.auth-server.renegade.fi"

/-- `ExternalMatchClient`: the state a constructed client carries (the api
secret is held by its inner HTTP client). -/
structure ExternalMatchClient where
  api_key : Option String
  api_secret : Option String
  base_url : String
deriving Repr, DecidableEq

/-- `RenegadeLiquidityModule._get_client`: resolves the chain selector to a
preconfigured client; unknown or missing selectors raise `ValueError`. -/
def get_client (fixed_parameters : FixedParameters) : Except String ExternalMatchClient :=
  match fixed_parameters.chain with
  | some Chain.ARBITRUM_ONE =>
      .ok ⟨fixed_parameters.api_key, fixed_parameters.api_secret, ARBITRUM_ONE_BASE_URL⟩
  | some Chain.ARBITRUM_SEPOLIA =>
      .ok ⟨fixed_parameters.api_key, fixed_parameters.api_secret, ARBITRUM_SEPOLIA_BASE_URL⟩
  | some Chain.BASE_MAINNET =>
      .ok ⟨fixed_parameters.api_key, fixed_parameters.api_secret, BASE_MAINNET_BASE_URL⟩
  | some Chain.BASE_SEPOLIA =>
      .ok ⟨fixed_parameters.api_key, fixed_parameters.api_secret, BASE_SEPOLIA_BASE_URL⟩
  | none => .error "Invalid chain"

/-- An HTTP response as the client layer sees it: the status code, the
parsed JSON body when one is present and deserializes into an
`ExternalMatchResponse` (`none` embeds both an absent body and an
undecodable one, either of which makes the Python client raise), and the
raw response text used in error messages. -/
structure HttpResponse where
  status_code : Nat
  body : Option ExternalMatchResponse := none
  text : String := ""

/-- The outcome of the single HTTP POST performed per quote call, as an
oracle over the posted order: the transport layer either returns a
response or raises an exception. -/
inductive TransportOutcome where
  | response (resp : HttpResponse)
  | raised (msg : String)

/-- A transport oracle: what the external HTTP layer does with each order. -/
abbrev Transport : Type :=
  ExternalOrder → TransportOutcome

/-- `ExternalMatchClient._handle_optional_response` combined with the body
deserialization in `request_external_match_with_options`: 204 means no
quote, 200 yields the parsed response (raising when the body does not
decode), any other status raises `ExternalMatchClientError`. -/
def handle_optional_response (resp : HttpResponse) : Except String (Option ExternalMatchResponse) :=
  if resp.status_code == 204 then
    .ok none
  else if resp.status_code == 200 then
    match resp.body with
    | some b => .ok (some b)
    | none => .error "response body failed to decode"
  else
    .error resp.text

/-- `ExternalMatchClient.request_external_match`: posts the order once and
interprets the outcome; a transport exception propagates as a raise. -/
def request_external_match (transport : Transport) (order : ExternalOrder) :
    Except String (Option ExternalMatchResponse) :=
  match transport order with
  | .raised msg => .error msg
  | .response resp => handle_optional_response resp

/-- The caller-facing quote tuple: fee in input token, amount, bundle. -/
abbrev QuoteResult : Type :=
  Option Int × Option Int × Option AtomicMatchApiBundle

/-- `RenegadeLiquidityModule.get_sell_quote`.  Mirrors the Python control
flow: pair validation first (early sentinel), then client resolution and
order construction whose exceptions propagate (both sit outside the `try`
block), then the transport call whose exceptions are caught and converted
to the sentinel, then interpretation of the optional match. -/
def get_sell_quote (fixed_parameters : FixedParameters)
    (input_token output_token : Token) (input_amount : Int)
    (transport : Transport) : Except String QuoteResult :=
  -- Validate the input pair
  if !(validate_pair input_token output_token) then
    .ok (none, none, none)
  else
    -- Fetch a quote
    match get_client fixed_parameters with
    | .error e => .error e
    | .ok _client =>
      match create_order_from_input input_token output_token input_amount with
      | .error e => .error e
      | .ok order =>
        match request_external_match transport order with
        | .error _ =>
            -- `except Exception` around the transport call
            .ok (none, none, none)
        | .ok none =>
            -- If the quote is not found, return None
            .ok (none, none, none)
        | .ok (some external_match) =>
            -- Fees are taken out of the receive amount, so the input token fee is zero
            .ok (some NO_INPUT_FEE,
                 some external_match.match_bundle.receive.amount,
                 some external_match.match_bundle)

/-- `RenegadeLiquidityModule.get_buy_quote`.  Same shape as
`get_sell_quote` but constrains the output amount and reports the send
leg's amount. -/
def get_buy_quote (fixed_parameters : FixedParameters)
    (input_token output_token : Token) (output_amount : Int)
    (transport : Transport) : Except String QuoteResult :=
  -- Validate the input pair
  if !(validate_pair input_token output_token) then
    .ok (none, none, none)
  else
    match get_client fixed_parameters with
    | .error e => .error e
    | .ok _client =>
      match create_order_from_output input_token output_token output_amount with
      | .error e => .error e
      | .ok order =>
        match request_external_match transport order with
        | .error _ =>
            .ok (none, none, none)
        | .ok none =>
            .ok (none, none, none)
        | .ok (some external_match) =>
            .ok (some NO_INPUT_FEE,
                 some external_match.match_bundle.send.amount,
                 some external_match.match_bundle)

/-!
Concrete fixtures, mirroring the repository's test constants: USDC and WETH
on Arbitrum One, a non-USDC test token, and sample transport outcomes.
-/

/-- USDC on Arbitrum One (checksum-cased, exercising the lower-casing). -/
def usdcToken : Token :=
  ⟨"0xAF88d065e77c8cC2239327C5EDb3A432268e5831", "USDC", 6, 1⟩

/-- WETH on Arbitrum One. -/
def wethToken : Token :=
  ⟨"0x82af49447d8a07e3bd95bd0d56f35241523fbab1", "WETH", 18, 2000⟩

/-- A token that is not USDC. -/
def otherToken : Token :=
  ⟨"0x1230000000000000000000000000000000000123", "TEST", 18, 1⟩

/-- Fixed parameters selecting Arbitrum One with test credentials. -/
def arbFixedParameters : FixedParameters :=
  ⟨some Chain.ARBITRUM_ONE, some "test_api_key", some "test_api_secret"⟩

/-- Fixed parameters whose chain selector is missing or unrecognized. -/
def badFixedParameters : FixedParameters :=
  ⟨none, some "test_api_key", some "test_api_secret"⟩

/-- A sample match bundle: receive 1e18 WETH, send 2e9 USDC, with a
non-trivial fees record. -/
def sampleBundle : AtomicMatchApiBundle :=
  { match_result :=
      ⟨"0xaf88d065e77c8cc2239327c5edb3a432268e5831",
       "0x82af49447d8a07e3bd95bd0d56f35241523fbab1",
       2000000000, 1000000000000000000, OrderSide.BUY⟩
    fees := ⟨1500, 2500⟩
    receive := ⟨"0x82af49447d8a07e3bd95bd0d56f35241523fbab1", 1000000000000000000⟩
    send := ⟨"0xaf88d065e77c8cc2239327c5edb3a432268e5831", 2000000000⟩
    settlement_tx := ⟨[("data", "0x123456789abcdef"),
                       ("to", "0xdef0123456789abcdef0123456789abcdef0123"),
                       ("value", "0")]⟩ }

/-- A sample deserialized match response wrapping `sampleBundle`. -/
def sampleResponse : ExternalMatchResponse :=
  ⟨sampleBundle, false, none⟩

/-- A transport that answers every order with status 200 and `sampleResponse`. -/
def okTransport : Transport :=
  fun _ => .response ⟨200, some sampleResponse, ""⟩

/-- A transport that answers every order with status 204 (no content). -/
def noContentTransport : Transport :=
  fun _ => .response ⟨204, none, ""⟩

/-- A transport that raises on every order. -/
def raisingTransport : Transport :=
  fun _ => .raised "connection reset by peer"

/-!
Helper lemmas shared by the claim theorems.
-/

/-- An order with only `quote_amount` populated (non-zero) constructs. -/
lemma construct_quote_amount_ok (qm bm : String) (amt : Int) (h : amt ≠ 0) :
    ExternalOrder.construct
      { quote_mint := qm, base_mint := bm, side := OrderSide.BUY, quote_amount := some amt } =
      .ok { quote_mint := qm, base_mint := bm, side := OrderSide.BUY, quote_amount := some amt } := by
  have h0 : (amt == 0) = false := beq_eq_false_iff_ne.mpr h
  simp [ExternalOrder.construct, ExternalOrder.validate_amounts, amtUnset, h0]

/-- An order with only `base_amount` populated (non-zero) constructs. -/
lemma construct_base_amount_ok (qm bm : String) (amt : Int) (h : amt ≠ 0) :
    ExternalOrder.construct
      { quote_mint := qm, base_mint := bm, side := OrderSide.SELL, base_amount := some amt } =
      .ok { quote_mint := qm, base_mint := bm, side := OrderSide.SELL, base_amount := some amt } := by
  have h0 : (amt == 0) = false := beq_eq_false_iff_ne.mpr h
  simp [ExternalOrder.construct, ExternalOrder.validate_amounts, amtUnset, h0]

/-- An order with only `exact_base_output` populated (non-zero) constructs. -/
lemma construct_exact_base_output_ok (qm bm : String) (amt : Int) (h : amt ≠ 0) :
    ExternalOrder.construct
      { quote_mint := qm, base_mint := bm, side := OrderSide.BUY, exact_base_output := some amt } =
      .ok { quote_mint := qm, base_mint := bm, side := OrderSide.BUY,
            exact_base_output := some amt } := by
  have h0 : (amt == 0) = false := beq_eq_false_iff_ne.mpr h
  simp [ExternalOrder.construct, ExternalOrder.validate_amounts, amtUnset, h0]

/-- An order with only `exact_quote_output` populated (non-zero) constructs. -/
lemma construct_exact_quote_output_ok (qm bm : String) (amt : Int) (h : amt ≠ 0) :
    ExternalOrder.construct
      { quote_mint := qm, base_mint := bm, side := OrderSide.SELL, exact_quote_output := some amt } =
      .ok { quote_mint := qm, base_mint := bm, side := OrderSide.SELL,
            exact_quote_output := some amt } := by
  have h0 : (amt == 0) = false := beq_eq_false_iff_ne.mpr h
  simp [ExternalOrder.construct, ExternalOrder.validate_amounts, amtUnset, h0]

/-- On a valid pair whose input is not USDC, the output is USDC. -/
lemma usdc_out_of_valid (input_token output_token : Token)
    (hvalid : validate_pair input_token output_token = true)
    (hin : check_usdc input_token = false) :
    check_usdc output_token = true := by
  cases ho : check_usdc output_token
  · simp [validate_pair, hin, ho] at hvalid
  · rfl

/-- A present chain selector resolves to a client (no raise). -/
lemma get_client_isOk (fp : FixedParameters) (c : Chain) (h : fp.chain = some c) :
    ∃ cl, get_client fp = .ok cl := by
  cases c <;> simp [get_client, h]

/-!
Claim theorems.
-/

/-- C1: for every valid pair and constraint kind, the constructed order
follows the four-row decision table: input is the reference asset (USDC)
gives side Buy with `quote_amount` set when constraining input and
`exact_base_output` when constraining output; input not the reference
asset gives side Sell with `base_amount` when constraining input and
`exact_quote_output` when constraining output; in every case the
reference asset lands in `quote_mint` and the other token in `base_mint`. -/
theorem C1_order_decision_table (input_token output_token : Token) (amount : Int)
    (hvalid : validate_pair input_token output_token = true) (hamount : amount ≠ 0) :
    (check_usdc input_token = true →
      create_order_from_input input_token output_token amount =
        .ok { quote_mint := input_token.address, base_mint := output_token.address,
              side := OrderSide.BUY, quote_amount := some amount } ∧
      create_order_from_output input_token output_token amount =
        .ok { quote_mint := input_token.address, base_mint := output_token.address,
              side := OrderSide.BUY, exact_base_output := some amount }) ∧
    (check_usdc input_token = false →
      check_usdc output_token = true ∧
      create_order_from_input input_token output_token amount =
        .ok { quote_mint := output_token.address, base_mint := input_token.address,
              side := OrderSide.SELL, base_amount := some amount } ∧
      create_order_from_output input_token output_token amount =
        .ok { quote_mint := output_token.address, base_mint := input_token.address,
              side := OrderSide.SELL, exact_quote_output := some amount }) := by
  constructor
  · intro hin
    constructor
    · rw [create_order_from_input, if_pos hin]
      exact construct_quote_amount_ok _ _ _ hamount
    · rw [create_order_from_output, if_pos hin]
      exact construct_exact_base_output_ok _ _ _ hamount
  · intro hin
    refine ⟨usdc_out_of_valid _ _ hvalid hin, ?_, ?_⟩
    · rw [create_order_from_input, if_neg (by simp [hin])]
      exact construct_base_amount_ok _ _ _ hamount
    · rw [create_order_from_output, if_neg (by simp [hin])]
      exact construct_exact_quote_output_ok _ _ _ hamount

/-- Witness for C1 at the USDC/WETH pair with input amount 2e9. -/
theorem C1_order_decision_table_witness :
    validate_pair usdcToken wethToken = true ∧ (2000000000 : Int) ≠ 0 ∧
    create_order_from_input usdcToken wethToken 2000000000 =
      .ok { quote_mint := usdcToken.address, base_mint := wethToken.address,
            side := OrderSide.BUY, quote_amount := some 2000000000 } :=
  ⟨by decide, by decide,
    ((C1_order_decision_table usdcToken wethToken 2000000000 (by decide) (by decide)).1
      (by decide)).1⟩

/-- C3: `validate_pair` is true iff exactly one of the two tokens is the
reference asset, where a token is classified as the reference asset by its
lower-cased address belonging to the known USDC address registry. -/
theorem C3_validate_pair_iff_exactly_one_usdc (input_token output_token : Token) :
    (∀ t : Token, check_usdc t = USDC_ADDRESSES.contains (strToLower t.address)) ∧
    (validate_pair input_token output_token = true ↔
      ((check_usdc input_token = true ∧ check_usdc output_token = false) ∨
       (check_usdc input_token = false ∧ check_usdc output_token = true))) := by
  refine ⟨fun _ => rfl, ?_⟩
  cases h1 : check_usdc input_token <;> cases h2 : check_usdc output_token <;>
    simp [validate_pair, h1, h2]

/-- A constraint field counts as populated when it is neither null nor zero. -/
def Populated (x : Option Int) : Prop :=
  x ≠ none ∧ x ≠ some 0

/-- `Populated` is the negation of the `validate_amounts` unset test. -/
lemma populated_iff_amtUnset_false (x : Option Int) :
    Populated x ↔ amtUnset x = false := by
  cases x with
  | none => simp [Populated, amtUnset]
  | some v => simp [Populated, amtUnset]

/-- C6: constructing an `ExternalOrder` succeeds iff exactly one of the
four amount-constraint fields is populated (non-null and non-zero);
zero populated fields or more than one populated field raise. -/
theorem C6_construct_iff_exactly_one_populated (o : ExternalOrder) :
    (∃ o2, ExternalOrder.construct o = .ok o2) ↔
      ((Populated o.base_amount ∧ ¬Populated o.quote_amount ∧
        ¬Populated o.exact_base_output ∧ ¬Populated o.exact_quote_output) ∨
       (¬Populated o.base_amount ∧ Populated o.quote_amount ∧
        ¬Populated o.exact_base_output ∧ ¬Populated o.exact_quote_output) ∨
       (¬Populated o.base_amount ∧ ¬Populated o.quote_amount ∧
        Populated o.exact_base_output ∧ ¬Populated o.exact_quote_output) ∨
       (¬Populated o.base_amount ∧ ¬Populated o.quote_amount ∧
        ¬Populated o.exact_base_output ∧ Populated o.exact_quote_output)) := by
  rw [populated_iff_amtUnset_false, populated_iff_amtUnset_false,
      populated_iff_amtUnset_false, populated_iff_amtUnset_false]
  cases hba : amtUnset o.base_amount <;> cases hqa : amtUnset o.quote_amount <;>
    cases hbo : amtUnset o.exact_base_output <;> cases hqo : amtUnset o.exact_quote_output <;>
      simp [ExternalOrder.construct, ExternalOrder.validate_amounts, hba, hqa, hbo, hqo]

/-- Constraining a non-zero input amount always constructs an order. -/
lemma create_order_from_input_isOk (input_token output_token : Token) (amt : Int)
    (h : amt ≠ 0) :
    ∃ ord, create_order_from_input input_token output_token amt = .ok ord := by
  rw [create_order_from_input]
  split
  · exact ⟨_, construct_quote_amount_ok _ _ _ h⟩
  · exact ⟨_, construct_base_amount_ok _ _ _ h⟩

/-- Constraining a non-zero output amount always constructs an order. -/
lemma create_order_from_output_isOk (input_token output_token : Token) (amt : Int)
    (h : amt ≠ 0) :
    ∃ ord, create_order_from_output input_token output_token amt = .ok ord := by
  rw [create_order_from_output]
  split
  · exact ⟨_, construct_exact_base_output_ok _ _ _ h⟩
  · exact ⟨_, construct_exact_quote_output_ok _ _ _ h⟩

/-- Constraining a zero input amount raises at order construction. -/
lemma create_order_from_input_zero (input_token output_token : Token) :
    create_order_from_input input_token output_token 0 =
      .error "One of base_amount, quote_amount, exact_base_output, or exact_quote_output must be set" := by
  rw [create_order_from_input]
  split <;> rfl

/-- Constraining a zero output amount raises at order construction. -/
lemma create_order_from_output_zero (input_token output_token : Token) :
    create_order_from_output input_token output_token 0 =
      .error "One of base_amount, quote_amount, exact_base_output, or exact_quote_output must be set" := by
  rw [create_order_from_output]
  split <;> rfl

/-- Once the pair validates, the client resolves and the order constructs,
`get_sell_quote` is the interpretation of the transport outcome. -/
lemma get_sell_quote_transport (fp : FixedParameters) (input_token output_token : Token)
    (amt : Int) (transport : Transport) (hvalid : validate_pair input_token output_token = true)
    (cl : ExternalMatchClient) (hcl : get_client fp = .ok cl)
    (ord : ExternalOrder) (hord : create_order_from_input input_token output_token amt = .ok ord) :
    get_sell_quote fp input_token output_token amt transport =
      (match request_external_match transport ord with
       | .error _ => .ok (none, none, none)
       | .ok none => .ok (none, none, none)
       | .ok (some em) =>
           .ok (some NO_INPUT_FEE, some em.match_bundle.receive.amount,
                some em.match_bundle)) := by
  simp [get_sell_quote, hvalid, hcl, hord]

/-- Once the pair validates, the client resolves and the order constructs,
`get_buy_quote` is the interpretation of the transport outcome. -/
lemma get_buy_quote_transport (fp : FixedParameters) (input_token output_token : Token)
    (amt : Int) (transport : Transport) (hvalid : validate_pair input_token output_token = true)
    (cl : ExternalMatchClient) (hcl : get_client fp = .ok cl)
    (ord : ExternalOrder) (hord : create_order_from_output input_token output_token amt = .ok ord) :
    get_buy_quote fp input_token output_token amt transport =
      (match request_external_match transport ord with
       | .error _ => .ok (none, none, none)
       | .ok none => .ok (none, none, none)
       | .ok (some em) =>
           .ok (some NO_INPUT_FEE, some em.match_bundle.send.amount,
                some em.match_bundle)) := by
  simp [get_buy_quote, hvalid, hcl, hord]

/-- C2: when the transport returns a bundle with `receive.amount = R` and
`send.amount = S`, the input-constraining quote reports amount `R` and the
output-constraining quote reports amount `S`. -/
theorem C2_round_trip_amounts (fp : FixedParameters) (c : Chain)
    (input_token output_token : Token) (amt : Int)
    (em : ExternalMatchResponse) (R S : Int)
    (hvalid : validate_pair input_token output_token = true)
    (hchain : fp.chain = some c) (hamt : amt ≠ 0)
    (hR : em.match_bundle.receive.amount = R) (hS : em.match_bundle.send.amount = S) :
    get_sell_quote fp input_token output_token amt (fun _ => .response ⟨200, some em, ""⟩) =
      .ok (some NO_INPUT_FEE, some R, some em.match_bundle) ∧
    get_buy_quote fp input_token output_token amt (fun _ => .response ⟨200, some em, ""⟩) =
      .ok (some NO_INPUT_FEE, some S, some em.match_bundle) := by
  obtain ⟨cl, hcl⟩ := get_client_isOk fp c hchain
  obtain ⟨ordI, hordI⟩ := create_order_from_input_isOk input_token output_token amt hamt
  obtain ⟨ordO, hordO⟩ := create_order_from_output_isOk input_token output_token amt hamt
  constructor
  · rw [get_sell_quote_transport fp input_token output_token amt _ hvalid cl hcl ordI hordI]
    simp [request_external_match, handle_optional_response, hR]
  · rw [get_buy_quote_transport fp input_token output_token amt _ hvalid cl hcl ordO hordO]
    simp [request_external_match, handle_optional_response, hS]

/-- Witness for C2 at USDC→WETH with `sampleResponse`. -/
theorem C2_round_trip_amounts_witness :
    validate_pair usdcToken wethToken = true ∧
    arbFixedParameters.chain = some Chain.ARBITRUM_ONE ∧ (2000000000 : Int) ≠ 0 ∧
    get_sell_quote arbFixedParameters usdcToken wethToken 2000000000
        (fun _ => .response ⟨200, some sampleResponse, ""⟩) =
      .ok (some NO_INPUT_FEE, some 1000000000000000000, some sampleResponse.match_bundle) :=
  ⟨by decide, rfl, by decide,
   (C2_round_trip_amounts arbFixedParameters Chain.ARBITRUM_ONE usdcToken wethToken
      2000000000 sampleResponse 1000000000000000000 2000000000
      (by decide) rfl (by decide) rfl rfl).1⟩

/-- C4: whenever a quote operation returns a match bundle, the reported
input-token fee is zero, whatever the bundle (and its fees record) holds. -/
theorem C4_zero_input_fee (fp : FixedParameters) (input_token output_token : Token)
    (amt : Int) (transport : Transport) (fee amount : Option Int)
    (bundle : AtomicMatchApiBundle) :
    (get_sell_quote fp input_token output_token amt transport = .ok (fee, amount, some bundle) →
      fee = some NO_INPUT_FEE) ∧
    (get_buy_quote fp input_token output_token amt transport = .ok (fee, amount, some bundle) →
      fee = some NO_INPUT_FEE) := by
  constructor
  · intro h
    rw [get_sell_quote] at h
    split at h
    · simp at h
    · split at h
      · simp at h
      · split at h
        · simp at h
        · split at h
          · simp at h
          · simp at h
          · simp only [Except.ok.injEq, Prod.mk.injEq] at h
            exact h.1.symm
  · intro h
    rw [get_buy_quote] at h
    split at h
    · simp at h
    · split at h
      · simp at h
      · split at h
        · simp at h
        · split at h
          · simp at h
          · simp at h
          · simp only [Except.ok.injEq, Prod.mk.injEq] at h
            exact h.1.symm

/-- Witness for C4: a successful sell quote against `sampleBundle`, whose
fees record is non-zero, still reports a zero input-token fee. -/
theorem C4_zero_input_fee_witness :
    get_sell_quote arbFixedParameters usdcToken wethToken 2000000000 okTransport =
      .ok (some 0, some 1000000000000000000, some sampleBundle) ∧
    (some 0 : Option Int) = some NO_INPUT_FEE :=
  ⟨rfl,
   (C4_zero_input_fee arbFixedParameters usdcToken wethToken 2000000000 okTransport
      (some 0) (some 1000000000000000000) sampleBundle).1 rfl⟩

/-- C5 counterexample: on the valid pair USDC→WETH with a zero constraint
amount, `get_sell_quote` raises the order-construction validation error
(order construction sits outside the `try` block) instead of returning the
absent-result sentinel. -/
theorem C5_counterexample :
    get_sell_quote arbFixedParameters usdcToken wethToken 0 okTransport =
      .error "One of base_amount, quote_amount, exact_base_output, or exact_quote_output must be set" ∧
    get_sell_quote arbFixedParameters usdcToken wethToken 0 okTransport ≠
      .ok (none, none, none) := by
  constructor
  · rfl
  · intro h
    rw [show get_sell_quote arbFixedParameters usdcToken wethToken 0 okTransport =
          Except.error "One of base_amount, quote_amount, exact_base_output, or exact_quote_output must be set"
        from rfl] at h
    exact Except.noConfusion h

/-- C5 (amended): a malformed order constraint is not recovered: on a valid
pair with a resolvable chain, a zero constraint amount makes both quote
operations raise the order-construction validation error; only
pair-validation failure is recovered as the absent-result sentinel. -/
theorem C5_amended_zero_amount_raises (fp : FixedParameters) (c : Chain)
    (input_token output_token : Token) (transport : Transport)
    (hvalid : validate_pair input_token output_token = true)
    (hchain : fp.chain = some c) :
    get_sell_quote fp input_token output_token 0 transport =
      .error "One of base_amount, quote_amount, exact_base_output, or exact_quote_output must be set" ∧
    get_buy_quote fp input_token output_token 0 transport =
      .error "One of base_amount, quote_amount, exact_base_output, or exact_quote_output must be set" := by
  obtain ⟨cl, hcl⟩ := get_client_isOk fp c hchain
  constructor
  · simp [get_sell_quote, hvalid, hcl, create_order_from_input_zero]
  · simp [get_buy_quote, hvalid, hcl, create_order_from_output_zero]

/-- Witness for the amended C5 at USDC→WETH on Arbitrum One. -/
theorem C5_amended_zero_amount_raises_witness :
    validate_pair usdcToken wethToken = true ∧
    arbFixedParameters.chain = some Chain.ARBITRUM_ONE ∧
    get_sell_quote arbFixedParameters usdcToken wethToken 0 okTransport =
      .error "One of base_amount, quote_amount, exact_base_output, or exact_quote_output must be set" :=
  ⟨by decide, rfl,
   (C5_amended_zero_amount_raises arbFixedParameters Chain.ARBITRUM_ONE usdcToken wethToken
      okTransport (by decide) rfl).1⟩

/-- C7: with a valid pair, a resolvable chain and a well-formed order, a
raising transport or a 204 (no content) response both yield the
absent-result sentinel: the exception is caught, not re-raised, and the
single transport outcome is consumed once (the embedding performs exactly
one transport round trip, so no retry can occur). -/
theorem C7_transport_failure_sentinel (fp : FixedParameters) (c : Chain)
    (input_token output_token : Token) (amt : Int) (msg text : String)
    (body : Option ExternalMatchResponse)
    (hvalid : validate_pair input_token output_token = true)
    (hchain : fp.chain = some c) (hamt : amt ≠ 0) :
    (get_sell_quote fp input_token output_token amt (fun _ => .raised msg) =
       .ok (none, none, none) ∧
     get_buy_quote fp input_token output_token amt (fun _ => .raised msg) =
       .ok (none, none, none)) ∧
    (get_sell_quote fp input_token output_token amt (fun _ => .response ⟨204, body, text⟩) =
       .ok (none, none, none) ∧
     get_buy_quote fp input_token output_token amt (fun _ => .response ⟨204, body, text⟩) =
       .ok (none, none, none)) := by
  obtain ⟨cl, hcl⟩ := get_client_isOk fp c hchain
  obtain ⟨ordI, hordI⟩ := create_order_from_input_isOk input_token output_token amt hamt
  obtain ⟨ordO, hordO⟩ := create_order_from_output_isOk input_token output_token amt hamt
  refine ⟨⟨?_, ?_⟩, ⟨?_, ?_⟩⟩
  · rw [get_sell_quote_transport fp input_token output_token amt _ hvalid cl hcl ordI hordI]
    simp [request_external_match]
  · rw [get_buy_quote_transport fp input_token output_token amt _ hvalid cl hcl ordO hordO]
    simp [request_external_match]
  · rw [get_sell_quote_transport fp input_token output_token amt _ hvalid cl hcl ordI hordI]
    simp [request_external_match, handle_optional_response]
  · rw [get_buy_quote_transport fp input_token output_token amt _ hvalid cl hcl ordO hordO]
    simp [request_external_match, handle_optional_response]

/-- Witness for C7 at WETH→USDC on Arbitrum One: the raising transport and
the 204 transport both produce the sentinel. -/
theorem C7_transport_failure_sentinel_witness :
    validate_pair wethToken usdcToken = true ∧
    arbFixedParameters.chain = some Chain.ARBITRUM_ONE ∧
    (1000000000000000000 : Int) ≠ 0 ∧
    get_sell_quote arbFixedParameters wethToken usdcToken 1000000000000000000
        (fun _ => .raised "connection reset by peer") =
      .ok (none, none, none) :=
  ⟨by decide, rfl, by decide,
   ((C7_transport_failure_sentinel arbFixedParameters Chain.ARBITRUM_ONE wethToken usdcToken
      1000000000000000000 "connection reset by peer" "" none
      (by decide) rfl (by decide)).1).1⟩

/-- C8: an unknown or missing chain selector makes client resolution raise
`ValueError`, and on a valid pair that configuration error propagates out
of both quote operations instead of becoming the absent-result sentinel. -/
theorem C8_unknown_chain_raises (fp : FixedParameters) (input_token output_token : Token)
    (amt : Int) (transport : Transport)
    (hvalid : validate_pair input_token output_token = true)
    (hchain : fp.chain = none) :
    get_client fp = .error "Invalid chain" ∧
    get_sell_quote fp input_token output_token amt transport = .error "Invalid chain" ∧
    get_buy_quote fp input_token output_token amt transport = .error "Invalid chain" := by
  have hcl : get_client fp = .error "Invalid chain" := by
    simp [get_client, hchain]
  refine ⟨hcl, ?_, ?_⟩
  · simp [get_sell_quote, hvalid, hcl]
  · simp [get_buy_quote, hvalid, hcl]

/-- Witness for C8 at USDC→WETH with a missing chain selector. -/
theorem C8_unknown_chain_raises_witness :
    validate_pair usdcToken wethToken = true ∧
    badFixedParameters.chain = none ∧
    get_sell_quote badFixedParameters usdcToken wethToken 2000000000 okTransport =
      .error "Invalid chain" :=
  ⟨by decide, rfl,
   (C8_unknown_chain_raises badFixedParameters usdcToken wethToken 2000000000 okTransport
      (by decide) rfl).2.1⟩

/-- C9: on an invalid pair both quote operations return the absent-result
sentinel, for every transport oracle — the result does not depend on the
transport, which expresses that no transport call is made. -/
theorem C9_invalid_pair_sentinel (fp : FixedParameters) (input_token output_token : Token)
    (amt : Int) (transport : Transport)
    (hinvalid : validate_pair input_token output_token = false) :
    get_sell_quote fp input_token output_token amt transport = .ok (none, none, none) ∧
    get_buy_quote fp input_token output_token amt transport = .ok (none, none, none) := by
  constructor
  · simp [get_sell_quote, hinvalid]
  · simp [get_buy_quote, hinvalid]

/-- Witness for C9 at the non-reference pair WETH→TEST, against a transport
that would raise if it were ever called. -/
theorem C9_invalid_pair_sentinel_witness :
    validate_pair wethToken otherToken = false ∧
    get_sell_quote arbFixedParameters wethToken otherToken 1000000000000000000
        raisingTransport =
      .ok (none, none, none) :=
  ⟨by decide,
   (C9_invalid_pair_sentinel arbFixedParameters wethToken otherToken 1000000000000000000
      raisingTransport (by decide)).1⟩

/-- C10: pair validation runs before client resolution: on an invalid pair
the sentinel is returned even when the chain selector is missing or
unknown, so the configuration error of client resolution is never
reached. -/
theorem C10_validation_before_client_resolution (fp : FixedParameters)
    (input_token output_token : Token) (amt : Int) (transport : Transport)
    (hinvalid : validate_pair input_token output_token = false)
    (_hchain : fp.chain = none) :
    get_sell_quote fp input_token output_token amt transport = .ok (none, none, none) ∧
    get_buy_quote fp input_token output_token amt transport = .ok (none, none, none) := by
  constructor
  · simp [get_sell_quote, hinvalid]
  · simp [get_buy_quote, hinvalid]

/-- Witness for C10: invalid pair and missing chain selector still give the
sentinel rather than the configuration error. -/
theorem C10_validation_before_client_resolution_witness :
    validate_pair wethToken otherToken = false ∧
    badFixedParameters.chain = none ∧
    get_buy_quote badFixedParameters wethToken otherToken 5 raisingTransport =
      .ok (none, none, none) :=
  ⟨by decide, rfl,
   (C10_validation_before_client_resolution badFixedParameters wethToken otherToken 5
      raisingTransport (by decide) rfl).2⟩

end Renegade
